import Mathlib

/-!
Shallow embedding of the Azuma rate-limit core
(src/Azuma.js: class AzumaRatelimit; src/ratelimits/AzumaIPC.js: class AzumaIPC).

Modelling conventions:
* JavaScript header values (what `Headers.get` hands to `constructData` and what
  `update` destructures) are modelled by `JSVal`: `null`, `undefined`, numbers
  and strings.  Per the WHATWG Fetch standard, `Headers.get` on an absent header
  returns `null`.
* JavaScript numbers relevant here are integers (epoch milliseconds, counters,
  seconds); `JSNum` is the value space of `Number(...)` with `nan`, finite
  integers and `inf` (for the literal `Infinity`).  String-to-number coercion
  follows ToNumber on integer literals: the empty/whitespace string coerces to
  0, integer literals to their value, everything else to NaN.
* The `date` header is modelled as already-parsed epoch milliseconds carried in
  a `num`, so `new Date(date).getTime()` is `dateGetTime`; `new Date(null)` is
  the epoch (0).
* Time is explicit: every operation that reads `Date.now()` takes `now : Int`.
* `this.manager` state (the `timeout` global-halt scalar, the `hashes` map and
  the configuration scalars read through `this.manager.azuma`) is the
  `Manager` structure; `emit(debug, ...)` calls are modelled as an emitted
  `Event` list; `sleep(after).then(() => this.manager.timeout = 0)` is modelled
  as a scheduled clear time returned by `update` and consumed by the
  event-loop relation `step` below.
-/

inductive JSVal where
  | null : JSVal
  | undef : JSVal
  | num : Int → JSVal
  | str : String → JSVal
deriving DecidableEq, Repr

inductive JSNum where
  | nan : JSNum
  | fin : Int → JSNum
  | inf : JSNum
deriving DecidableEq, Repr

/-- ASCII whitespace, for ToNumber string trimming. -/
def isWs (c : Char) : Bool :=
  c = ' ' || c = '\t' || c = '\n' || c = '\r'

/-- Trim whitespace from both ends of a character list. -/
def trimChars (l : List Char) : List Char :=
  ((l.dropWhile isWs).reverse.dropWhile isWs).reverse

/-- The value of a decimal digit character, none on a non-digit. -/
def digitVal (c : Char) : Option Nat :=
  if c = '0' then some 0 else if c = '1' then some 1 else if c = '2' then some 2
  else if c = '3' then some 3 else if c = '4' then some 4 else if c = '5' then some 5
  else if c = '6' then some 6 else if c = '7' then some 7 else if c = '8' then some 8
  else if c = '9' then some 9 else none

/-- Parse a nonempty run of decimal digits. -/
def digitsToNat (l : List Char) : Option Nat :=
  match l with
  | [] => none
  | _ :: _ =>
    l.foldl (fun acc c =>
      match acc, digitVal c with
      | some n, some d => some (n * 10 + d)
      | _, _ => none) (some 0)

/-- Parse an optionally signed decimal integer literal. -/
def parseIntChars (l : List Char) : Option Int :=
  match l with
  | '-' :: rest => (digitsToNat rest).map (fun n => -(n : Int))
  | '+' :: rest => (digitsToNat rest).map (fun n => (n : Int))
  | _ => (digitsToNat l).map (fun n => (n : Int))

/-- ToNumber on a string: trimmed empty string is 0, integer literals parse,
anything else is NaN. -/
def strToNumber (s : String) : JSNum :=
  let t := trimChars s.data
  if t = [] then .fin 0
  else match parseIntChars t with
    | some n => .fin n
    | none => .nan

/-- JavaScript `Number(v)` / ToNumber. `Number(null) = 0`,
`Number(undefined) = NaN`. -/
def toNumber : JSVal → JSNum
  | .null => .fin 0
  | .undef => .nan
  | .num n => .fin n
  | .str s => strToNumber s

/-- JavaScript global `isNaN(v)`: ToNumber then NaN test. -/
def jsIsNaN (v : JSVal) : Bool :=
  toNumber v == .nan

/-- JavaScript truthiness of a header value. -/
def jsTruthy : JSVal → Bool
  | .null => false
  | .undef => false
  | .num n => n != 0
  | .str s => s != ""

/-- Strict inequality `v !== s` against a string: only a string with the same
characters is strictly equal. -/
def jsStrNe (v : JSVal) (s : String) : Bool :=
  match v with
  | .str t => t != s
  | _ => true

/-- The finite value of a `JSNum`; only used under a `jsIsNaN` guard, where the
value is finite. -/
def JSNum.toInt : JSNum → Int
  | .fin n => n
  | _ => 0

/-- `new Date(v).getTime()` where the date header is modelled as epoch
milliseconds; `new Date(null)` is the epoch. -/
def dateGetTime : JSVal → Int
  | .num n => n
  | _ => 0

/-- Diagnostic events emitted through `this.manager.azuma.emit(debug, ...)`. -/
inductive Event where
  | hashUpdate (route oldHash newHash : String)
  | globalHalt (afterMs : Int)
deriving DecidableEq, Repr

/-- The per-bucket fields of `AzumaRatelimit` (constructor, src/Azuma.js). -/
structure Bucket where
  id : String
  hash : String
  route : String
  limit : JSNum
  remaining : Int
  reset : Int
  after : Int
deriving DecidableEq, Repr

/-- `new AzumaRatelimit(manager, id, hash, route)`. -/
def Bucket.make (id hash route : String) : Bucket :=
  { id := id, hash := hash, route := route
    limit := .fin (-1), remaining := -1, reset := -1, after := -1 }

/-- The slice of `AzumaManager` state that `AzumaRatelimit` reads and writes:
the `timeout` global-halt scalar (0 = inactive), the `hashes` map
(`method:route` → hash) and the configuration scalars reached through
`this.manager.azuma`. -/
structure Manager where
  timeout : Int
  hashes : List (String × String)
  sweepInterval : Int
  requestOffset : Int
deriving DecidableEq, Repr

/-- `Map.prototype.set`: replace the value under an existing key, else append. -/
def setAssoc (l : List (String × String)) (k v : String) : List (String × String) :=
  match l with
  | [] => [(k, v)]
  | (k0, v0) :: rest =>
    if k0 = k then (k, v) :: rest else (k0, v0) :: setAssoc rest k v

/-- `Map.prototype.get`. -/
def getAssoc (l : List (String × String)) (k : String) : Option String :=
  match l with
  | [] => none
  | (k0, v0) :: rest => if k0 = k then some v0 else getAssoc rest k

namespace AzumaRatelimit

/-- The request context consumed by `constructData`. -/
structure Request where
  route : String
deriving DecidableEq, Repr

/-- The response headers consumed by `constructData`: the headers present on
the response, as name/value pairs.  `Headers.get` is case-insensitive and
returns `null` for an absent header. -/
structure Headers where
  entries : List (String × String)
deriving DecidableEq, Repr

/-- Lowercase an ASCII letter, for case-insensitive header names. -/
def lowerChar (c : Char) : Char :=
  if c = 'A' then 'a' else if c = 'B' then 'b' else if c = 'C' then 'c'
  else if c = 'D' then 'd' else if c = 'E' then 'e' else if c = 'F' then 'f'
  else if c = 'G' then 'g' else if c = 'H' then 'h' else if c = 'I' then 'i'
  else if c = 'J' then 'j' else if c = 'K' then 'k' else if c = 'L' then 'l'
  else if c = 'M' then 'm' else if c = 'N' then 'n' else if c = 'O' then 'o'
  else if c = 'P' then 'p' else if c = 'Q' then 'q' else if c = 'R' then 'r'
  else if c = 'S' then 's' else if c = 'T' then 't' else if c = 'U' then 'u'
  else if c = 'V' then 'v' else if c = 'W' then 'w' else if c = 'X' then 'x'
  else if c = 'Y' then 'y' else if c = 'Z' then 'z' else c

/-- Lowercase a header name. -/
def lowerStr (s : String) : String :=
  ⟨s.data.map lowerChar⟩

/-- `headers.get(name)` per the Fetch standard: case-insensitive lookup,
`null` when absent. -/
def Headers.get (h : Headers) (name : String) : JSVal :=
  match getAssoc (h.entries.map (fun p => (lowerStr p.1, p.2))) (lowerStr name) with
  | some v => .str v
  | none => .null

/-- The object produced by `constructData` and destructured by `update`. -/
structure HeaderData where
  date : JSVal
  limit : JSVal
  remaining : JSVal
  reset : JSVal
  hash : JSVal
  after : JSVal
  global : Bool
  reactions : Bool
deriving DecidableEq, Repr

/-- The `= {}` destructuring default of `update`: every field `undefined`. -/
def HeaderData.empty : HeaderData :=
  { date := .undef, limit := .undef, remaining := .undef, reset := .undef
    hash := .undef, after := .undef, global := false, reactions := false }

/-- Whether the first character list starts the second one. -/
def startsWithChars : List Char → List Char → Bool
  | [], _ => true
  | _ :: _, [] => false
  | c :: cs, d :: ds => c = d && startsWithChars cs ds

/-- Whether the pattern occurs anywhere in the character list. -/
def containsChars (pat : List Char) : List Char → Bool
  | [] => startsWithChars pat []
  | c :: rest => startsWithChars pat (c :: rest) || containsChars pat rest

/-- `request.route.includes(..reactions..)`. -/
def routeHasReactions (route : String) : Bool :=
  containsChars "reactions".data route.data

/-- `AzumaRatelimit.constructData(request, headers)` (src/Azuma.js line 166):
throws when request or headers is absent, otherwise builds the update object
from the response headers. -/
def constructData (request : Option Request) (headers : Option Headers) :
    Except String HeaderData :=
  match request, headers with
  | some req, some h =>
    .ok { date := h.get "date"
          limit := h.get "x-ratelimit-limit"
          remaining := h.get "x-ratelimit-remaining"
          reset := h.get "x-ratelimit-reset"
          hash := h.get "X-RateLimit-Bucket"
          after := h.get "retry-after"
          global := jsTruthy (h.get "x-ratelimit-global")
          reactions := routeHasReactions req.route }
  | _, _ => .error "Request and Headers can not be null"

/-- `AzumaRatelimit.getAPIOffset(date)` (src/Azuma.js line 185):
`new Date(date).getTime() - Date.now()`. -/
def getAPIOffset (date : JSVal) (now : Int) : Int :=
  dateGetTime date - now

/-- `AzumaRatelimit.calculateReset(reset, date)` (src/Azuma.js line 195):
`new Date(Number(reset) * 1000).getTime() - getAPIOffset(date)`. -/
def calculateReset (reset : JSVal) (date : JSVal) (now : Int) : Int :=
  (toNumber reset).toInt * 1000 - getAPIOffset date now

/-- The `limited` getter (src/Azuma.js line 203):
`!!this.manager.timeout || this.remaining <= 0 && Date.now() < this.reset`. -/
def limited (b : Bucket) (m : Manager) (now : Int) : Bool :=
  m.timeout != 0 || (b.remaining ≤ 0 && now < b.reset)

/-- The `timeout` getter (src/Azuma.js line 211):
`this.reset + this.manager.azuma.options.requestOffset - Date.now()`. -/
def timeoutGetter (b : Bucket) (m : Manager) (now : Int) : Int :=
  b.reset + m.requestOffset - now

/-- The result of one `update` call: the new bucket and manager state, the
debug events emitted, and the fire times of the deferred global-halt clears
scheduled by `sleep(this.after).then(() => this.manager.timeout = 0)`. -/
structure UpdateResult where
  bucket : Bucket
  manager : Manager
  events : List Event
  clears : List Int
deriving DecidableEq, Repr

/-- `AzumaRatelimit.update(method, route, data)` (src/Azuma.js line 221),
translated statement by statement:
1. `this.limit = !isNaN(limit) ? Number(limit) : Infinity`
2. `this.remaining = !isNaN(remaining) ? Number(remaining) : -1`
3. `this.reset = !isNaN(reset) ? calculateReset(reset, date) : Date.now()`
4. `this.after = !isNaN(after) ? Number(after) * 1000 : -1`
5. hash block: `if (hash && hash !== this.hash)` emit debug and
   `this.manager.hashes.set(method : route, hash)` (`this.hash` itself
   is never reassigned)
6. reactions block: `if (reactions) this.reset = new Date(date).getTime()
   - getAPIOffset(date) + this.manager.azuma.sweepInterval`
7. global block: `if (global)` emit debug,
   `this.manager.timeout = Date.now() + this.after`, and schedule a clear
   `this.after` ms later. -/
def update (now : Int) (method route : String) (d : HeaderData)
    (b : Bucket) (m : Manager) : UpdateResult :=
  let limit := if !(jsIsNaN d.limit) then toNumber d.limit else .inf
  let remaining := if !(jsIsNaN d.remaining) then (toNumber d.remaining).toInt else -1
  let reset0 := if !(jsIsNaN d.reset) then calculateReset d.reset d.date now else now
  let after := if !(jsIsNaN d.after) then (toNumber d.after).toInt * 1000 else -1
  let migrate := jsTruthy d.hash && jsStrNe d.hash b.hash
  let newHash := match d.hash with
    | .str s => s
    | _ => ""
  let hashes := if migrate then setAssoc m.hashes (method ++ ":" ++ route) newHash
    else m.hashes
  let ev1 : List Event := if migrate then [.hashUpdate route b.hash newHash] else []
  let reset := if d.reactions then
      dateGetTime d.date - getAPIOffset d.date now + m.sweepInterval
    else reset0
  let timeout := if d.global then now + after else m.timeout
  let ev2 : List Event := if d.global then [.globalHalt after] else []
  let clears : List Int := if d.global then [now + after] else []
  { bucket := { b with limit := limit, remaining := remaining, reset := reset, after := after }
    manager := { m with timeout := timeout, hashes := hashes }
    events := ev1 ++ ev2
    clears := clears }

/-- The full update path as invoked on a response: `constructData` followed by
`update`; the thrown validation error propagates before any state is touched. -/
def updateFromResponse (now : Int) (method route : String)
    (request : Option Request) (headers : Option Headers)
    (b : Bucket) (m : Manager) : Except String UpdateResult :=
  (constructData request headers).map (fun d => update now method route d b m)

end AzumaRatelimit

namespace AzumaIPC

/-- The `data` object an IPC message carries; its `op` field selects the
handler. -/
structure MsgData where
  op : Int
deriving DecidableEq, Repr

/-- An incoming IPC message (src/ratelimits/AzumaIPC.js): the `data` field is
`Option`al because a message need not carry one. -/
structure Message where
  data : Option MsgData
deriving DecidableEq, Repr

/-- `AzumaIPC._incommingMessage(message)` (src/ratelimits/AzumaIPC.js line 4):

  const event = IPCEvents[message.data.op]?.toLowerCase();
  if (!event) return;
  this[`_` + event](message);

`ipcEvents` is the kurasuta `IPCEvents` reverse enum mapping (op code →
event name, absent for unrecognized codes); `handlers` models method lookup
`this[...]` acting on the ambient dispatcher/registry state `st`.  Reading
`message.data.op` on a message without `data` throws a TypeError, modelled as
`Except.error`; a recognized op invokes the handler and returns its name. -/
def incommingMessage {α : Type} (ipcEvents : Int → Option String)
    (handlers : String → Message → α → α) (st : α) (msg : Message) :
    Except String (α × Option String) :=
  match msg.data with
  | none => .error "TypeError: can not read properties of undefined"
  | some d =>
    match ipcEvents d.op with
    | none => .ok (st, none)
    | some name =>
      let ev := name.toLower
      if ev = "" then .ok (st, none)
      else .ok (handlers ("_" ++ ev) msg st, some ("_" ++ ev))

end AzumaIPC

namespace GlobalHalt

open AzumaRatelimit

/-- Event-loop state for the global-halt protocol: the coordinator bucket and
manager, plus the fire times of deferred clears scheduled by
`sleep(this.after).then(() => this.manager.timeout = 0)` that have not yet
run. -/
structure GState where
  bucket : Bucket
  manager : Manager
  pending : List Int
deriving DecidableEq, Repr

/-- A header set reporting a global 429 with `retry-after: r` seconds
(`x-ratelimit-global` set, every other header absent). -/
def haltData (r : Int) : HeaderData :=
  { HeaderData.empty with after := .num r, global := true }

/-- Event-loop actions: `halt t r` applies `update` with a global 429
(retry-after `r` seconds) at time `t`; `fireClear s t` runs, at time `t`, the
deferred clear that was scheduled to fire at time `s` (timers never run before
their scheduled time: `s ≤ t`). -/
inductive Act where
  | halt (t r : Int)
  | fireClear (s t : Int)
deriving DecidableEq, Repr

/-- One event-loop step.  A `halt` runs the real `update`; a `fireClear` runs
the deferred callback `() => this.manager.timeout = 0`, which unconditionally
zeroes the live `timeout` scalar. -/
def stepG (g : GState) : Act → Option GState
  | .halt t r =>
    let res := update t "GET" "/channels/1/messages" (haltData r) g.bucket g.manager
    some { bucket := res.bucket, manager := res.manager
           pending := g.pending ++ res.clears }
  | .fireClear s t =>
    if s ∈ g.pending ∧ s ≤ t then
      some { bucket := g.bucket
             manager := { g.manager with timeout := 0 }
             pending := g.pending.erase s }
    else none

/-- Run a list of event-loop actions from a state. -/
def runTrace (g : GState) : List Act → Option GState
  | [] => some g
  | a :: rest =>
    match stepG g a with
    | some g2 => runTrace g2 rest
    | none => none

/-- The initial coordinator state: a fresh bucket, no halt, no pending
clears. -/
def init : GState :=
  { bucket := Bucket.make "id" "hash" "/channels/1/messages"
    manager := { timeout := 0, hashes := [], sweepInterval := 0, requestOffset := 500 }
    pending := [] }

end GlobalHalt

open AzumaRatelimit

/-- Looking up a key just set by `Map.prototype.set` yields the set value. -/
theorem getAssoc_setAssoc (l : List (String × String)) (k v : String) :
    getAssoc (setAssoc l k v) k = some v := by
  induction l with
  | nil => simp [setAssoc, getAssoc]
  | cons p rest ih =>
    obtain ⟨k0, v0⟩ := p
    simp only [setAssoc]
    by_cases h : k0 = k
    · simp [getAssoc, h]
    · simp [getAssoc, h, ih]

/-- C4: dispatching a message whose op code is not a recognized dispatch key
returns without invoking any handler (the state component is returned
untouched and no handler name is produced) and does not raise (the result is
`ok`, not `error`). -/
theorem C4_unknown_op {α : Type} (ipcEvents : Int → Option String)
    (handlers : String → AzumaIPC.Message → α → α) (st : α)
    (msg : AzumaIPC.Message) (d : AzumaIPC.MsgData)
    (hdata : msg.data = some d) (hop : ipcEvents d.op = none) :
    AzumaIPC.incommingMessage ipcEvents handlers st msg = .ok (st, none) := by
  simp [AzumaIPC.incommingMessage, hdata, hop]

/-- C4 witness: a concrete unrecognized op code 99 is dropped silently. -/
theorem C4_unknown_op_witness :
    AzumaIPC.incommingMessage (fun _ => (none : Option String))
      (fun _ _ (s : Nat) => s + 1) 5 { data := some { op := 99 } } = .ok (5, none) :=
  C4_unknown_op (fun _ => none) (fun _ _ s => s + 1) 5
    { data := some { op := 99 } } { op := 99 } rfl rfl

/-- C5: on a special-case route (the header set carries `reactions := true`),
`update` sets the reset field to `serverDate - offset + sweepInterval`,
whatever reset header the update carries. -/
theorem C5_reactions_reset (now : Int) (method route : String) (d : HeaderData)
    (b : Bucket) (m : Manager) (h : d.reactions = true) :
    (update now method route d b m).bucket.reset =
      dateGetTime d.date - getAPIOffset d.date now + m.sweepInterval := by
  simp [update, h]

/-- C5 witness: a reactions update at time 7 with server date 3ms,
sweepInterval 240000 and a (discarded) reset header of 100 seconds yields
`3 - (3 - 7) + 240000 = 240007`. -/
theorem C5_reactions_reset_witness :
    (update 7 "GET" "/channels/1/messages/2/reactions"
      { HeaderData.empty with reactions := true, reset := .str "100", date := .num 3 }
      (Bucket.make "i" "h" "/channels/1/messages/2/reactions")
      { timeout := 0, hashes := [], sweepInterval := 240000, requestOffset := 500 }).bucket.reset
      = 240007 := by
  rw [C5_reactions_reset 7 "GET" "/channels/1/messages/2/reactions"
    { HeaderData.empty with reactions := true, reset := .str "100", date := .num 3 }
    (Bucket.make "i" "h" "/channels/1/messages/2/reactions")
    { timeout := 0, hashes := [], sweepInterval := 240000, requestOffset := 500 } rfl]
  rfl

/-- C6: with a numeric reset header of T seconds, `calculateReset` is
`T * 1000 - (serverDate - now)`, the updated bucket reset field equals that
value on a normal route, and with zero clock offset (serverDate = now) it is
exactly `T * 1000`. -/
theorem C6_calculate_reset (now T : Int) (method route : String) (d : HeaderData)
    (b : Bucket) (m : Manager) (hr : d.reset = .num T) (hd : d.reactions = false) :
    calculateReset d.reset d.date now = T * 1000 - (dateGetTime d.date - now) ∧
    (update now method route d b m).bucket.reset = T * 1000 - (dateGetTime d.date - now) ∧
    (d.date = .num now → (update now method route d b m).bucket.reset = T * 1000) := by
  refine ⟨?_, ?_, ?_⟩
  · simp [calculateReset, hr, toNumber, JSNum.toInt, getAPIOffset]
  · simp [update, hr, hd, jsIsNaN, toNumber, calculateReset, JSNum.toInt, getAPIOffset]
  · intro hdate
    simp [update, hr, hd, hdate, jsIsNaN, toNumber, calculateReset, JSNum.toInt,
      getAPIOffset, dateGetTime]

/-- C6 witness: reset header 100 with serverDate = now = 42 gives exactly
100000. -/
theorem C6_calculate_reset_witness :
    calculateReset (.num 100) (.num 42) 42 = 100 * 1000 - (dateGetTime (.num 42) - 42) ∧
    (update 42 "GET" "/gateway"
      { HeaderData.empty with reset := .num 100, date := .num 42 }
      (Bucket.make "i" "h" "/gateway")
      { timeout := 0, hashes := [], sweepInterval := 0, requestOffset := 500 }).bucket.reset
      = 100 * 1000 := by
  have h := C6_calculate_reset 42 100 "GET" "/gateway"
    { HeaderData.empty with reset := .num 100, date := .num 42 }
    (Bucket.make "i" "h" "/gateway")
    { timeout := 0, hashes := [], sweepInterval := 0, requestOffset := 500 } rfl rfl
  exact ⟨h.1, h.2.2 rfl⟩

/-- C8: the full update path (`constructData` then `update`) fails with the
validation error when the request context or the header set is absent; the
error is produced before any bucket or manager state is computed, so the
failed call leaves the caller holding the untouched state. -/
theorem C8_validation_error (now : Int) (method route : String)
    (request : Option Request) (headers : Option Headers)
    (b : Bucket) (m : Manager) (habs : request = none ∨ headers = none) :
    updateFromResponse now method route request headers b m =
      .error "Request and Headers can not be null" := by
  rcases habs with h | h
  · subst h; cases headers <;> simp [updateFromResponse, constructData, Except.map]
  · subst h; cases request <;> simp [updateFromResponse, constructData, Except.map]

/-- C8 witness: a call with no request context fails with the validation
error. -/
theorem C8_validation_error_witness :
    updateFromResponse 0 "GET" "/gateway" none (some { entries := [] })
      (Bucket.make "i" "h" "/gateway")
      { timeout := 0, hashes := [], sweepInterval := 0, requestOffset := 500 } =
      .error "Request and Headers can not be null" :=
  C8_validation_error 0 "GET" "/gateway" none (some { entries := [] })
    (Bucket.make "i" "h" "/gateway")
    { timeout := 0, hashes := [], sweepInterval := 0, requestOffset := 500 } (Or.inl rfl)

/-- C10: the dispatcher is not total over message shapes: a message without a
`data` object makes `_incommingMessage` raise a TypeError (reading
`message.data.op`), while every message that carries a `data` object is
handled without error. -/
theorem C10_missing_data {α : Type} (ipcEvents : Int → Option String)
    (handlers : String → AzumaIPC.Message → α → α) (st : α)
    (msg : AzumaIPC.Message) :
    (msg.data = none →
      AzumaIPC.incommingMessage ipcEvents handlers st msg =
        .error "TypeError: can not read properties of undefined") ∧
    (∀ d, msg.data = some d →
      (AzumaIPC.incommingMessage ipcEvents handlers st msg).isOk = true) := by
  constructor
  · intro h
    simp [AzumaIPC.incommingMessage, h]
  · intro d h
    simp only [AzumaIPC.incommingMessage, h]
    cases hop : ipcEvents d.op with
    | none => rfl
    | some name =>
      by_cases he : name.toLower = ""
      · simp [he, Except.isOk, Except.toBool]
      · simp [he, Except.isOk, Except.toBool]

/-- C10 witness: the concrete no-data message raises, and the same message
with a data object does not. -/
theorem C10_missing_data_witness :
    (AzumaIPC.incommingMessage (fun _ => (none : Option String))
      (fun _ _ (s : Nat) => s) 0 { data := none } =
      .error "TypeError: can not read properties of undefined") ∧
    (AzumaIPC.incommingMessage (fun _ => (none : Option String))
      (fun _ _ (s : Nat) => s) 0 { data := some { op := 3 } }).isOk = true :=
  ⟨(C10_missing_data (fun _ => none) (fun _ _ s => s) 0 { data := none }).1 rfl,
   (C10_missing_data (fun _ => none) (fun _ _ s => s) 0 { data := some { op := 3 } }).2
     { op := 3 } rfl⟩

/-- C1 counterexample: after a global 429 with retry-after 1 s at time 0 the
live halt scalar is 1000; at time 2000 the deferred clear may not have run
yet, and `limited` is still true (the getter tests truthiness of the scalar,
`!!this.manager.timeout`), while the claimed predicate
`globalHaltUntil > now() or (remaining ≤ 0 and now() < resetAt)` is false
there — so the claimed equivalence fails on this bucket state. -/
theorem C1_counterexample :
    let r := update 0 "GET" "/gateway"
      { HeaderData.empty with after := .num 1, global := true }
      (Bucket.make "i" "h" "/gateway")
      { timeout := 0, hashes := [], sweepInterval := 0, requestOffset := 500 }
    r.manager.timeout = 1000 ∧ limited r.bucket r.manager 2000 = true ∧
      ¬(r.manager.timeout > 2000 ∨
        (r.bucket.remaining ≤ 0 ∧ (2000 : Int) < r.bucket.reset)) := by
  decide

/-- C1 amended: `limited` is true iff the live global-halt scalar is nonzero
(truthiness, even when its deadline has already passed but the deferred clear
has not yet run) or `remaining ≤ 0` and the current time is before
`resetAt`. -/
theorem C1_limited_iff (b : Bucket) (m : Manager) (now : Int) :
    limited b m now = true ↔
      (m.timeout ≠ 0 ∨ (b.remaining ≤ 0 ∧ now < b.reset)) := by
  simp [limited]

/-- C2 counterexample: a global halt with retry-after 5 s at t = 0 schedules
a clear at 5000; a second global halt with retry-after 5 s at t = 1000 sets
the scalar to 6000 and should, per the claim, keep it nonzero until
1000 + 5*1000 = 6000.  But the first deferred clear, firing exactly on its
own schedule at 5000, unconditionally zeroes the live scalar, clearing the
later halt 1000 ms early — so the later halt does not overwrite the effect of
the earlier still-pending clear. -/
theorem C2_counterexample :
    (GlobalHalt.runTrace GlobalHalt.init
        [.halt 0 5, .halt 1000 5, .fireClear 5000 5000]).map
        (fun g => g.manager.timeout) = some 0 ∧
      (5000 : Int) < 1000 + 5 * 1000 := by
  decide

/-- C2 amended: a global update with retry-after r seconds at time t sets the
live halt scalar to t + r*1000 and schedules a deferred clear at exactly
t + r*1000; a deferred clear can fire only at or after its own scheduled time
(never earlier than r*1000 after the halt that scheduled it) and then
unconditionally zeroes the live scalar without re-checking it — hence an
earlier still-pending clear also zeroes a later halt, as the counterexample
shows; a clear that was never scheduled cannot fire. -/
theorem C2_global_halt (g : GlobalHalt.GState) (t r s t2 : Int)
    (hmem : s ∈ g.pending) (hle : s ≤ t2) :
    ((GlobalHalt.stepG g (.halt t r)).map
        (fun g2 => (g2.manager.timeout, g2.pending)) =
      some (t + r * 1000, g.pending ++ [t + r * 1000])) ∧
    ((GlobalHalt.stepG g (.fireClear s t2)).map
        (fun g2 => g2.manager.timeout) = some 0) ∧
    (∀ s2 t3, s2 ∉ g.pending → GlobalHalt.stepG g (.fireClear s2 t3) = none) := by
  refine ⟨?_, ?_, ?_⟩
  · simp [GlobalHalt.stepG, update, GlobalHalt.haltData, HeaderData.empty,
      jsIsNaN, toNumber, JSNum.toInt, jsTruthy]
  · simp [GlobalHalt.stepG, hmem, hle]
  · intro s2 t3 h2
    simp [GlobalHalt.stepG, h2]

/-- C2 amended-claim witness: from a state with one pending clear at 5000, a
halt at t = 0 with retry-after 5 s sets the scalar to 5000 and appends a
clear at 5000, and the pending clear may fire at 5000, zeroing the scalar. -/
theorem C2_global_halt_witness :
    ((GlobalHalt.stepG { GlobalHalt.init with pending := [5000] } (.halt 0 5)).map
        (fun g2 => (g2.manager.timeout, g2.pending)) = some (5000, [5000, 5000])) ∧
    ((GlobalHalt.stepG { GlobalHalt.init with pending := [5000] }
        (.fireClear 5000 5000)).map (fun g2 => g2.manager.timeout) = some 0) := by
  have h := C2_global_halt { GlobalHalt.init with pending := [5000] } 0 5 5000 5000
    (by decide) (by decide)
  exact ⟨by simpa using h.1, h.2.1⟩

/-- C3 counterexample: applying one and the same update (hash H1) twice to
one bucket whose recorded hash is H0 emits the migration event twice — the
second application is not a no-op, because the migration guard compares the
incoming hash against `this.hash`, a field `update` never reassigns. -/
theorem C3_counterexample :
    let m0 : Manager := { timeout := 0, hashes := [], sweepInterval := 0, requestOffset := 500 }
    let d : HeaderData := { HeaderData.empty with hash := .str "H1", date := .num 0 }
    let r1 := update 0 "GET" "/gateway" d (Bucket.make "i" "H0" "/gateway") m0
    let r2 := update 0 "GET" "/gateway" d r1.bucket r1.manager
    r1.events = [.hashUpdate "/gateway" "H0" "H1"] ∧
      r2.events = [.hashUpdate "/gateway" "H0" "H1"] ∧
      r2.bucket.hash = "H0" := by
  decide

/-- C3 amended: an update whose hash is truthy and differs from the bucket
field `hash` repoints the registry mapping `method:route` to the new hash and
emits the migration event, while leaving the bucket field `hash` untouched —
so reapplying the same hash to the same bucket migrates (and emits) again
rather than being a no-op; an update whose hash equals the bucket field
`hash` leaves the mapping unchanged and emits no migration event. -/
theorem C3_hash_migration (now : Int) (method route : String) (d : HeaderData)
    (b : Bucket) (m : Manager) (s : String) (hs : d.hash = .str s) :
    (s ≠ "" → s ≠ b.hash →
      getAssoc (update now method route d b m).manager.hashes
          (method ++ ":" ++ route) = some s ∧
        Event.hashUpdate route b.hash s ∈ (update now method route d b m).events ∧
        (update now method route d b m).bucket.hash = b.hash) ∧
    (s = b.hash →
      (update now method route d b m).manager.hashes = m.hashes ∧
        ∀ o n r2, Event.hashUpdate r2 o n ∉ (update now method route d b m).events) := by
  constructor
  · intro hne hnb
    have h1 : jsTruthy (JSVal.str s) = true := by simp [jsTruthy, hne]
    have h2 : jsStrNe (JSVal.str s) b.hash = true := by simp [jsStrNe, hnb]
    refine ⟨?_, ?_, ?_⟩
    · simp [update, hs, h1, h2, getAssoc_setAssoc]
    · simp [update, hs, h1, h2]
    · simp [update]
  · intro hb
    have h2 : jsStrNe (JSVal.str s) b.hash = false := by simp [jsStrNe, hb]
    constructor
    · simp [update, hs, h2]
    · intro o n r2
      by_cases hg : d.global <;> simp [update, hs, h2, hg]

/-- C3 amended-claim witness: hash H1 applied to a bucket recorded as H0
repoints GET:/gateway to H1, emits the migration event, and leaves the bucket
field hash at H0. -/
theorem C3_hash_migration_witness :
    getAssoc (update 0 "GET" "/gateway"
        { HeaderData.empty with hash := .str "H1", date := .num 0 }
        (Bucket.make "i" "H0" "/gateway")
        { timeout := 0, hashes := [], sweepInterval := 0, requestOffset := 500 }).manager.hashes
        ("GET" ++ ":" ++ "/gateway") = some "H1" ∧
      Event.hashUpdate "/gateway" "H0" "H1" ∈
        (update 0 "GET" "/gateway"
          { HeaderData.empty with hash := .str "H1", date := .num 0 }
          (Bucket.make "i" "H0" "/gateway")
          { timeout := 0, hashes := [], sweepInterval := 0, requestOffset := 500 }).events ∧
      (update 0 "GET" "/gateway"
        { HeaderData.empty with hash := .str "H1", date := .num 0 }
        (Bucket.make "i" "H0" "/gateway")
        { timeout := 0, hashes := [], sweepInterval := 0, requestOffset := 500 }).bucket.hash = "H0" :=
  (C3_hash_migration 0 "GET" "/gateway"
    { HeaderData.empty with hash := .str "H1", date := .num 0 }
    (Bucket.make "i" "H0" "/gateway")
    { timeout := 0, hashes := [], sweepInterval := 0, requestOffset := 500 }
    "H1" rfl).1 (by decide) (by decide)

/-- C7 counterexample: for a response carrying none of the rate-limit headers,
`Headers.get` yields null for each of them (per the Fetch standard),
`isNaN(null)` is false and `Number(null)` is 0, so `update` sets the bucket
field limit to 0 — not Infinity — and the bucket field remaining to 0 — not
-1 — refuting the claimed absent-header behaviour. -/
theorem C7_counterexample :
    ((constructData (some { route := "/gateway" }) (some { entries := [] })).toOption.map
        (fun d =>
          ((update 0 "GET" "/gateway" d (Bucket.make "i" "h" "/gateway")
              { timeout := 0, hashes := [], sweepInterval := 0, requestOffset := 500 }).bucket.limit,
            (update 0 "GET" "/gateway" d (Bucket.make "i" "h" "/gateway")
              { timeout := 0, hashes := [], sweepInterval := 0, requestOffset := 500 }).bucket.remaining))
        = some (.fin 0, 0)) ∧
      JSNum.fin 0 ≠ .inf ∧ (0 : Int) ≠ -1 := by
  decide

/-- C7 amended: the bucket field limit becomes `Number(headerSet.limit)`
whenever `isNaN` is false on it — which includes a null (absent) header,
coerced to 0 — and Infinity exactly when coercion yields NaN (an undefined
field or a non-numeric string); remaining likewise becomes
`Number(headerSet.remaining)` when `isNaN` is false on it (null coerces to
0), and -1 exactly when coercion yields NaN. -/
theorem C7_limit_remaining (now : Int) (method route : String) (d : HeaderData)
    (b : Bucket) (m : Manager) :
    ((∀ n, toNumber d.limit = .fin n →
        (update now method route d b m).bucket.limit = .fin n) ∧
      (toNumber d.limit = .nan → (update now method route d b m).bucket.limit = .inf) ∧
      (d.limit = .null → (update now method route d b m).bucket.limit = .fin 0)) ∧
    ((∀ n, toNumber d.remaining = .fin n →
        (update now method route d b m).bucket.remaining = n) ∧
      (toNumber d.remaining = .nan → (update now method route d b m).bucket.remaining = -1) ∧
      (d.remaining = .null → (update now method route d b m).bucket.remaining = 0)) := by
  refine ⟨⟨?_, ?_, ?_⟩, ⟨?_, ?_, ?_⟩⟩
  · intro n h
    simp [update, jsIsNaN, h, JSNum.toInt]
  · intro h
    simp [update, jsIsNaN, h]
  · intro h
    simp [update, jsIsNaN, h, toNumber, JSNum.toInt]
  · intro n h
    simp [update, jsIsNaN, h, JSNum.toInt]
  · intro h
    simp [update, jsIsNaN, h]
  · intro h
    simp [update, jsIsNaN, h, toNumber, JSNum.toInt]

/-- C7 amended-claim witness: null limit and remaining headers give limit 0
and remaining 0; an undefined limit and remaining give Infinity and -1. -/
theorem C7_limit_remaining_witness :
    ((update 0 "GET" "/gateway"
        { HeaderData.empty with limit := .null, remaining := .null, date := .num 0 }
        (Bucket.make "i" "h" "/gateway")
        { timeout := 0, hashes := [], sweepInterval := 0, requestOffset := 500 }).bucket.limit
        = .fin 0) ∧
      ((update 0 "GET" "/gateway"
        { HeaderData.empty with limit := .null, remaining := .null, date := .num 0 }
        (Bucket.make "i" "h" "/gateway")
        { timeout := 0, hashes := [], sweepInterval := 0, requestOffset := 500 }).bucket.remaining
        = 0) ∧
      ((update 0 "GET" "/gateway" HeaderData.empty
        (Bucket.make "i" "h" "/gateway")
        { timeout := 0, hashes := [], sweepInterval := 0, requestOffset := 500 }).bucket.limit
        = .inf) :=
  ⟨((C7_limit_remaining 0 "GET" "/gateway"
      { HeaderData.empty with limit := .null, remaining := .null, date := .num 0 }
      (Bucket.make "i" "h" "/gateway")
      { timeout := 0, hashes := [], sweepInterval := 0, requestOffset := 500 }).1).2.2 rfl,
    ((C7_limit_remaining 0 "GET" "/gateway"
      { HeaderData.empty with limit := .null, remaining := .null, date := .num 0 }
      (Bucket.make "i" "h" "/gateway")
      { timeout := 0, hashes := [], sweepInterval := 0, requestOffset := 500 }).2).2.2 rfl,
    ((C7_limit_remaining 0 "GET" "/gateway" HeaderData.empty
      (Bucket.make "i" "h" "/gateway")
      { timeout := 0, hashes := [], sweepInterval := 0, requestOffset := 500 }).1).2.1 rfl⟩

/-- C9 counterexample: two successive updates in the same hash epoch (neither
carries a hash header, the recorded route mapping and the bucket hash field
are untouched) move the bucket reset field backwards: the first sets it to
100000, the second to 50000 — the code overwrites resetAt unconditionally and
does not enforce forward movement. -/
theorem C9_counterexample :
    let m0 : Manager := { timeout := 0, hashes := [], sweepInterval := 0, requestOffset := 500 }
    let b1 := (update 0 "GET" "/gateway"
      { HeaderData.empty with reset := .str "100", date := .num 0 }
      (Bucket.make "i" "H0" "/gateway") m0).bucket
    let r2 := update 1 "GET" "/gateway"
      { HeaderData.empty with reset := .str "50", date := .num 1 } b1 m0
    b1.reset = 100000 ∧ r2.bucket.reset = 50000 ∧ r2.bucket.reset < b1.reset ∧
      r2.bucket.hash = b1.hash ∧ r2.manager.hashes = m0.hashes := by
  decide

/-- C9 amended: resetAt is overwritten unconditionally on every update: on a
normal route with a numeric reset header of r seconds the new value is
`r * 1000 - (serverDate - now)` whatever the previous bucket reset field was,
so an update carrying an earlier reset moves resetAt backwards even within a
hash epoch; monotonicity is not enforced by the code. -/
theorem C9_reset_overwrite (now : Int) (method route : String) (d : HeaderData)
    (b : Bucket) (m : Manager) (hreact : d.reactions = false) (r : Int)
    (hr : toNumber d.reset = .fin r) :
    (update now method route d b m).bucket.reset =
      r * 1000 - (dateGetTime d.date - now) := by
  have hn : jsIsNaN d.reset = false := by simp [jsIsNaN, hr]
  simp [update, hreact, hn, calculateReset, getAPIOffset, hr, JSNum.toInt]

/-- C9 amended-claim witness: a bucket whose reset field stands at 100000
receives an update with reset header 50 at time 1 and server date 1; its reset
field becomes 50000 regardless of the old value. -/
theorem C9_reset_overwrite_witness :
    (update 1 "GET" "/gateway"
      { HeaderData.empty with reset := .str "50", date := .num 1 }
      { Bucket.make "i" "H0" "/gateway" with reset := 100000 }
      { timeout := 0, hashes := [], sweepInterval := 0, requestOffset := 500 }).bucket.reset
      = 50 * 1000 - (dateGetTime (.num 1) - 1) :=
  C9_reset_overwrite 1 "GET" "/gateway"
    { HeaderData.empty with reset := .str "50", date := .num 1 }
    { Bucket.make "i" "H0" "/gateway" with reset := 100000 }
    { timeout := 0, hashes := [], sweepInterval := 0, requestOffset := 500 }
    rfl 50 (by decide)
